import Mathlib

/- Shallow embedding of api/server.js, an OpenAI-to-NVIDIA-NIM proxy running as
a single serverless handler.  JS strings are modeled as Lean String for payload
fields and as List Char for the raw stream text that the chunk handler splits
on newlines; JS truthiness and the defaulting operator are modeled explicitly.
The duplicate handler block after the first module.exports closing brace is
unreachable dead code and is not part of the embedding. -/

namespace NimProxy

/-- JS String.prototype.includes restricted to character lists: true when the
needle occurs as a contiguous substring of the haystack. -/
def hasSub (needle : List Char) : List Char → Bool
  | [] => needle.isEmpty
  | c :: rest => needle.isPrefixOf (c :: rest) || hasSub needle rest

/-- JS truthiness of a possibly-absent string field: an absent field
(undefined) and the empty string are falsy; every other string is truthy. -/
def jsTruthy : Option String → Bool
  | none => false
  | some s => s != ""

/-- Reasoning display toggle, server.js line 9: const SHOW_REASONING = false. -/
def SHOW_REASONING : Bool := false

/-- Thinking mode toggle, line 12: const ENABLE_THINKING_MODE = false. -/
def ENABLE_THINKING_MODE : Bool := false

/-- The static MODEL_MAPPING object, lines 15-23. -/
def MODEL_MAPPING (m : String) : Option String :=
  if m = "gpt-3.5-turbo" then some ("nvidia/llama-3.1-nemotron-ultra-253b-v1")
  else if m = "gpt-4" then some ("qwen/qwen3-coder-480b-a35b-instruct")
  else if m = "gpt-4-turbo" then some ("moonshotai/kimi-k2-instruct-0905")
  else if m = "gpt-4o" then some ("deepseek-ai/deepseek-v3.2")
  else if m = "claude-3-opus" then some ("openai/gpt-oss-120b")
  else if m = "claude-3-sonnet" then some ("openai/gpt-oss-20b")
  else if m = "gemini-pro" then some ("qwen/qwen3-next-80b-a3b-thinking")
  else none

/-- Object.keys(MODEL_MAPPING), in declaration order (used by /v1/models). -/
def MODEL_KEYS : List String :=
  ["gpt-3.5-turbo", "gpt-4", "gpt-4-turbo", "gpt-4o", "claude-3-opus",
   "claude-3-sonnet", "gemini-pro"]

/-- The CORS header object, lines 26-30. -/
def corsHeaders : List (String × String) :=
  [("Access-Control-Allow-Origin", "*"),
   ("Access-Control-Allow-Methods", "GET, POST, OPTIONS"),
   ("Access-Control-Allow-Headers", "Content-Type, Authorization")]

/-- The three extra headers set when a streaming response begins, lines 127-129. -/
def streamHeaders : List (String × String) :=
  [("Content-Type", "text/event-stream"),
   ("Cache-Control", "no-cache"),
   ("Connection", "keep-alive")]

/-- Outcome of the one probe call the resolver may make (lines 79-92): either
an HTTP status was received, or the request failed at the network level. -/
inductive ProbeResult where
  | status (code : Nat)
  | netError
deriving DecidableEq

/-- Whether the probe outcome makes the resolver adopt the requested id
verbatim: only HTTP 2xx does (lines 86-91).  Statuses at or above 500 reject
inside the HTTP client and are swallowed by the empty catch, other non-2xx
statuses resolve without setting the model; in all of those cases the
resolver falls through. -/
def probeAdopts : ProbeResult → Bool
  | .status c => decide (200 ≤ c) && decide (c < 300)
  | .netError => false

/-- Line 96: the large-tier condition on the lowercased requested name. -/
def largeHit (m : String) : Bool :=
  hasSub (("gpt-4").data) m.toLower.data ||
    hasSub (("claude-opus").data) m.toLower.data ||
    hasSub (("405b").data) m.toLower.data

/-- Line 98: the medium-tier condition on the lowercased requested name. -/
def mediumHit (m : String) : Bool :=
  hasSub (("claude").data) m.toLower.data ||
    hasSub (("gemini").data) m.toLower.data ||
    hasSub (("70b").data) m.toLower.data

/-- The heuristic tier fallback, lines 94-103. -/
def tierFallback (m : String) : String :=
  if largeHit m then "meta/llama-3.1-405b-instruct"
  else if mediumHit m then "meta/llama-3.1-70b-instruct"
  else "meta/llama-3.1-8b-instruct"

/-- Model resolution, lines 77-104: exact mapping lookup first; otherwise one
probe call, adopting the requested id on 2xx; otherwise the tier fallback.
Returns the resolved backend id together with the number of probe calls
performed. -/
def resolveModel (probe : String → ProbeResult) (m : String) : String × Nat :=
  match MODEL_MAPPING m with
  | some v => (v, 0)
  | none => if probeAdopts (probe m) then (m, 1) else (tierFallback m, 1)

/-- The inbound chat-completion request fields read by the handler (line 74).
Optional numeric fields model absent-vs-supplied; messages are passed through
opaquely as role/content pairs. -/
structure ChatRequest where
  model : String
  messages : List (String × String)
  temperature : Option ℚ
  max_tokens : Option Int
  stream : Option Bool

/-- The outgoing backend request built at lines 107-114.  extra_body records
whether the thinking block is attached. -/
structure NimRequest where
  model : String
  messages : List (String × String)
  temperature : ℚ
  max_tokens : Int
  extra_body : Bool
  stream : Bool
deriving DecidableEq

/-- JS defaulting on a possibly-absent number: v || d, where 0 is falsy. -/
def jsOrRat (v : Option ℚ) (d : ℚ) : ℚ :=
  match v with
  | none => d
  | some q => if q = 0 then d else q

/-- JS defaulting on a possibly-absent integer: v || d, where 0 is falsy. -/
def jsOrInt (v : Option Int) (d : Int) : Int :=
  match v with
  | none => d
  | some n => if n = 0 then d else n

/-- JS defaulting on a possibly-absent boolean: v || d. -/
def jsOrBool (v : Option Bool) (d : Bool) : Bool :=
  match v with
  | none => d
  | some b => b || d

/-- The request transform, lines 107-114. -/
def nimRequest (nimModel : String) (r : ChatRequest) : NimRequest :=
  { model := nimModel,
    messages := r.messages,
    temperature := jsOrRat r.temperature 0.6,
    max_tokens := jsOrInt r.max_tokens 9024,
    extra_body := ENABLE_THINKING_MODE,
    stream := jsOrBool r.stream false }

/-- The two delta fields the stream transform reads and writes
(lines 149-150): choices[0].delta.reasoning_content and .content. -/
structure Delta where
  reasoning_content : Option String
  content : Option String
deriving DecidableEq

/-- Result of JSON.parse on the payload of a data line: either the event has
no choices[0].delta (the transform leaves it alone, line 148), or it has one
with the two fields above.  Event fields outside the delta are carried through
re-serialization untouched and are not modeled. -/
inductive Parsed where
  | noDelta
  | withDelta (d : Delta)
deriving DecidableEq

/-- One write performed by the chunk handler: either a raw line passed through
followed by a single newline (the sentinel case, line 142, and the parse
failure case, line 184), or a transformed event re-framed as
data: JSON.stringify(data) plus a blank line (line 182). -/
inductive OutLine where
  | passthrough (line : List Char)
  | reframed (p : Parsed)
deriving DecidableEq

/-- The line prefix checked at line 140. -/
def dataMarker : List Char := ("data: ").data

/-- The termination sentinel checked at line 141. -/
def doneMarker : List Char := ("[DONE]").data

/-- The delta transform, lines 152-180, threading the reasoningStarted flag.
disp is the SHOW_REASONING toggle.  In the display branch the combined text is
built from the truthy reasoning and content pieces, and only when it is
nonempty is it written back and the reasoning field deleted; otherwise the
delta is left untouched.  In the non-display branch content is normalized to a
string and the reasoning field is always deleted. -/
def transformDelta (disp started : Bool) (d : Delta) : Bool × Delta :=
  if disp then
    let p1 : String × Bool :=
      if jsTruthy d.reasoning_content && !started then
        ("<think>\n" ++ d.reasoning_content.getD (""), true)
      else if jsTruthy d.reasoning_content then (d.reasoning_content.getD (""), started)
      else ("", started)
    let p2 : String × Bool :=
      if jsTruthy d.content && p1.2 then
        (p1.1 ++ "</think>\n\n" ++ d.content.getD (""), false)
      else if jsTruthy d.content then (p1.1 ++ d.content.getD (""), p1.2)
      else p1
    if p2.1 != "" then (p2.2, { reasoning_content := none, content := some p2.1 })
    else (p2.2, d)
  else
    (started,
     { reasoning_content := none,
       content := some (if jsTruthy d.content then d.content.getD ("") else "") })

/-- Processing of one complete line, lines 139-186: non-data lines are
dropped; data lines containing the sentinel are passed through; otherwise the
payload after the 6-character prefix is parsed, a present delta is
transformed, and the event is re-framed.  parse stands for JSON.parse
restricted to the modeled fields; returning none is a parse throw. -/
def processLine (parse : List Char → Option Parsed) (disp started : Bool)
    (line : List Char) : Bool × List OutLine :=
  if dataMarker.isPrefixOf line then
    if hasSub doneMarker line then (started, [OutLine.passthrough line])
    else
      match parse (List.drop 6 line) with
      | none => (started, [OutLine.passthrough line])
      | some Parsed.noDelta => (started, [OutLine.reframed Parsed.noDelta])
      | some (Parsed.withDelta d) =>
        let t := transformDelta disp started d
        (t.1, [OutLine.reframed (Parsed.withDelta t.2)])
  else (started, [])

/-- lines.forEach over the complete lines of a chunk, threading
reasoningStarted and concatenating the emitted writes in order. -/
def processLines (parse : List Char → Option Parsed) (disp : Bool) :
    Bool → List (List Char) → Bool × List OutLine
  | started, [] => (started, [])
  | started, line :: rest =>
    let p := processLine parse disp started line
    let q := processLines parse disp p.1 rest
    (q.1, p.2 ++ q.2)

/-- Prepend a fragment to the first piece of a split (helper for
splitNewline and for reasoning about carryover). -/
def glueHead (x : List Char) : List (List Char) → List (List Char)
  | [] => [x]
  | l :: ls => (x ++ l) :: ls

/-- Last element of a nonempty list of pieces, [] for the empty list
(models lines.pop() with its empty-string fallback). -/
def lastD : List (List Char) → List Char
  | [] => []
  | [l] => l
  | _ :: l :: ls => lastD (l :: ls)

/-- buffer.split of JS on a single newline character: always returns at
least one piece; pieces do not contain the separator. -/
def splitNewline : List Char → List (List Char)
  | [] => [[]]
  | c :: cs =>
    if c = '\n' then [] :: splitNewline cs else glueHead [c] (splitNewline cs)

/-- How the split of a concatenation is assembled from the two splits:
all complete pieces of the first part, then its trailing fragment glued onto
the first piece of the second part. -/
def combine (u v : List (List Char)) : List (List Char) :=
  u.dropLast ++ glueHead (lastD u) v

/-- Per-stream mutable state, lines 131-132: the carryover buffer and the
reasoningStarted flag. -/
structure StreamState where
  buffer : List Char
  reasoningStarted : Bool
deriving DecidableEq

/-- The chunk handler, lines 134-188: append the chunk to the buffer, split
on newlines, retain the final fragment as the new buffer, process all
complete lines in order. -/
def feedChunk (parse : List Char → Option Parsed) (disp : Bool)
    (st : StreamState) (chunk : List Char) : StreamState × List OutLine :=
  let ls := splitNewline (st.buffer ++ chunk)
  let pr := processLines parse disp st.reasoningStarted ls.dropLast
  ({ buffer := lastD ls, reasoningStarted := pr.1 }, pr.2)

/-- Body of an HTTP response produced by the router, abstracting the JSON
payloads to the parts the routing logic determines. -/
inductive BodyModel where
  | okTrue
  | health (service : String) (reasoningDisplay thinkingMode : Bool)
  | modelList (ids : List String)
  | chatCompletion
  | streamBody
  | errorEnv (message : String) (code : Nat)
deriving DecidableEq

/-- An HTTP response: status, accumulated headers, body. -/
structure HttpResponse where
  status : Nat
  headers : List (String × String)
  body : BodyModel
deriving DecidableEq

/-- Outcome of the chat-completions branch beyond routing: the backend call
succeeds (streaming or not) or fails, in which case the catch at lines
238-248 reports the backend status when available, else 500. -/
inductive ChatOutcome where
  | ok (stream : Bool)
  | backendError (code : Option Nat) (message : String)
deriving DecidableEq

/-- The request router, lines 33-248: OPTIONS returns 200 before any header is
set; otherwise the CORS headers are set on the response, then the path is
matched by substring against the health, models and chat routes, with a 404
envelope as the fallthrough and the catch mapping chat failures to an error
envelope.  The chat outcome abstracts the backend call. -/
def handler (chat : ChatOutcome) (method : String) (url : Option String) :
    HttpResponse :=
  if method = "OPTIONS" then
    { status := 200, headers := [], body := BodyModel.okTrue }
  else if hasSub (("/health").data) (url.getD ("/")).data ||
      url.getD ("/") == "/api" || url.getD ("/") == "/api/" then
    { status := 200, headers := corsHeaders,
      body := BodyModel.health ("OpenAI to NVIDIA NIM Proxy (Vercel)")
        SHOW_REASONING ENABLE_THINKING_MODE }
  else if hasSub (("/v1/models").data) (url.getD ("/")).data then
    { status := 200, headers := corsHeaders, body := BodyModel.modelList MODEL_KEYS }
  else if hasSub (("/v1/chat/completions").data) (url.getD ("/")).data &&
      method == "POST" then
    match chat with
    | ChatOutcome.ok true =>
      { status := 200, headers := corsHeaders ++ streamHeaders,
        body := BodyModel.streamBody }
    | ChatOutcome.ok false =>
      { status := 200, headers := corsHeaders, body := BodyModel.chatCompletion }
    | ChatOutcome.backendError c msg =>
      { status := c.getD 500, headers := corsHeaders,
        body := BodyModel.errorEnv msg (c.getD 500) }
  else
    { status := 404, headers := corsHeaders,
      body := BodyModel.errorEnv (("Endpoint ") ++ url.getD ("/") ++ (" not found")) 404 }

/-- A concrete parse oracle for exercising the display-enabled transform on
the three-event reasoning sequence. -/
def parseC2 : List Char → Option Parsed := fun s =>
  if s = ("1").data then
    some (Parsed.withDelta { reasoning_content := some ("a"), content := none })
  else if s = ("2").data then
    some (Parsed.withDelta { reasoning_content := some ("b"), content := none })
  else if s = ("3").data then
    some (Parsed.withDelta { reasoning_content := none, content := some ("c") })
  else none

/-- A concrete parse oracle for exercising the display-disabled transform on
an event carrying reasoning and an empty content delta. -/
def parseC3 : List Char → Option Parsed := fun s =>
  if s = ("x").data then
    some (Parsed.withDelta { reasoning_content := some ("secret"), content := some ("") })
  else none

/-- A concrete parse oracle producing an event whose delta carries an
empty-string reasoning field and no content. -/
def parseC4 : List Char → Option Parsed := fun s =>
  if s = ("e").data then
    some (Parsed.withDelta { reasoning_content := some (""), content := none })
  else none

theorem glueHead_ne_nil (x : List Char) (v : List (List Char)) : glueHead x v ≠ [] := by
  cases v <;> simp [glueHead]

theorem splitNewline_ne_nil (s : List Char) : splitNewline s ≠ [] := by
  induction s with
  | nil => simp [splitNewline]
  | cons c cs ih =>
    simp only [splitNewline]
    split
    · simp
    · exact glueHead_ne_nil _ _

theorem lastD_append (u : List (List Char)) (y : List Char) (t : List (List Char)) :
    lastD (u ++ y :: t) = lastD (y :: t) := by
  induction u with
  | nil => rfl
  | cons a u ih =>
    cases u with
    | nil => rfl
    | cons b u2 => exact ih

theorem combine_single (x : List Char) (v : List (List Char)) :
    combine [x] v = glueHead x v := by
  simp [combine, lastD]

theorem combine_cons (x : List Char) (S v : List (List Char)) (hS : S ≠ []) :
    combine (x :: S) v = x :: combine S v := by
  obtain ⟨y, t, rfl⟩ := List.exists_cons_of_ne_nil hS
  simp [combine, lastD, List.dropLast_cons₂]

theorem glueHead_glueHead (x y : List Char) (v : List (List Char)) :
    glueHead x (glueHead y v) = glueHead (x ++ y) v := by
  cases v <;> simp [glueHead]

theorem glueHead_combine (x : List Char) (S v : List (List Char)) (hS : S ≠ []) :
    glueHead x (combine S v) = combine (glueHead x S) v := by
  obtain ⟨l, ls, rfl⟩ := List.exists_cons_of_ne_nil hS
  cases ls with
  | nil =>
    rw [combine_single, glueHead_glueHead, show glueHead x [l] = [x ++ l] from rfl,
      combine_single]
  | cons m ms => simp [combine, lastD, glueHead, List.dropLast_cons₂]

theorem splitNewline_append (a b : List Char) :
    splitNewline (a ++ b) = combine (splitNewline a) (splitNewline b) := by
  induction a with
  | nil =>
    obtain ⟨h, t, hb⟩ := List.exists_cons_of_ne_nil (splitNewline_ne_nil b)
    simp [splitNewline, combine, lastD, glueHead, hb]
  | cons c cs ih =>
    show splitNewline (c :: (cs ++ b)) = _
    simp only [splitNewline]
    split
    · rw [ih, combine_cons _ _ _ (splitNewline_ne_nil cs)]
    · rw [ih, glueHead_combine _ _ _ (splitNewline_ne_nil cs)]

theorem noNewline_lastD_splitNewline (s : List Char) :
    ('\n') ∉ lastD (splitNewline s) := by
  induction s with
  | nil => simp [splitNewline, lastD]
  | cons c cs ih =>
    simp only [splitNewline]
    split
    · obtain ⟨h, t, hcs⟩ := List.exists_cons_of_ne_nil (splitNewline_ne_nil cs)
      rw [hcs] at ih ⊢
      exact ih
    · rename_i hc
      obtain ⟨h, t, hcs⟩ := List.exists_cons_of_ne_nil (splitNewline_ne_nil cs)
      rw [hcs] at ih ⊢
      cases t with
      | nil =>
        show ('\n') ∉ c :: h
        intro hmem
        rcases List.mem_cons.mp hmem with h1 | h1
        · exact hc h1.symm
        · exact ih h1
      | cons m ms =>
        show ('\n') ∉ lastD (m :: ms)
        exact ih

theorem splitNewline_of_noNewline (s : List Char) (h : ('\n') ∉ s) :
    splitNewline s = [s] := by
  induction s with
  | nil => rfl
  | cons c cs ih =>
    have hc : ¬ c = '\n' := fun he => h (by simp [he])
    have hcs : ('\n') ∉ cs := fun hm => h (List.mem_cons_of_mem _ hm)
    simp [splitNewline, hc, ih hcs, glueHead]

theorem processLines_append (parse : List Char → Option Parsed) (disp : Bool)
    (r : Bool) (xs ys : List (List Char)) :
    processLines parse disp r (xs ++ ys) =
      ((processLines parse disp (processLines parse disp r xs).1 ys).1,
       (processLines parse disp r xs).2 ++
         (processLines parse disp (processLines parse disp r xs).1 ys).2) := by
  induction xs generalizing r with
  | nil => simp [processLines]
  | cons x xs ih => simp [processLines, ih, List.append_assoc]

theorem feedChunk_append (parse : List Char → Option Parsed) (disp : Bool)
    (st : StreamState) (a b : List Char) :
    feedChunk parse disp st (a ++ b) =
      ((feedChunk parse disp (feedChunk parse disp st a).1 b).1,
       (feedChunk parse disp st a).2 ++
         (feedChunk parse disp (feedChunk parse disp st a).1 b).2) := by
  obtain ⟨bh, bt, hB⟩ := List.exists_cons_of_ne_nil (splitNewline_ne_nil b)
  simp only [feedChunk]
  rw [← List.append_assoc, splitNewline_append (st.buffer ++ a) b,
      splitNewline_append (lastD (splitNewline (st.buffer ++ a))) b,
      splitNewline_of_noNewline _ (noNewline_lastD_splitNewline (st.buffer ++ a)),
      combine_single, hB]
  simp only [combine, glueHead]
  rw [List.dropLast_append_cons, lastD_append, processLines_append]

/-- C1: for every event-stream input and every offset at which it is split
into two chunks, the transducer emits the same output events in the same
order as when the input is fed whole, and reaches the same state: the final
fragment after the last newline is carried over in the buffer and completed
by the next chunk.  Holds for any parse oracle, either display toggle and any
starting state. -/
theorem c1_chunk_split (parse : List Char → Option Parsed) (disp : Bool)
    (st : StreamState) (input : List Char) (k : Nat) :
    (feedChunk parse disp (feedChunk parse disp st (input.take k)).1 (input.drop k)).1 =
        (feedChunk parse disp st input).1 ∧
      (feedChunk parse disp st (input.take k)).2 ++
          (feedChunk parse disp (feedChunk parse disp st (input.take k)).1 (input.drop k)).2 =
        (feedChunk parse disp st input).2 := by
  have h := feedChunk_append parse disp st (input.take k) (input.drop k)
  rw [List.take_append_drop] at h
  exact ⟨by rw [h], by rw [h]⟩

theorem string_append_empty_iff (s t : String) : s ++ t = "" ↔ s = "" ∧ t = "" := by
  constructor
  · intro he
    have hd := congrArg String.data he
    rw [String.data_append] at hd
    have h2 := List.append_eq_nil.mp hd
    exact ⟨String.ext h2.1, String.ext h2.2⟩
  · rintro ⟨rfl, rfl⟩
    rfl

theorem jsTruthy_true_iff (o : Option String) :
    jsTruthy o = true ↔ ∃ s, o = some s ∧ s ≠ "" := by
  cases o with
  | none => simp [jsTruthy]
  | some s => simp [jsTruthy, bne_iff_ne]

/-- The display-disabled branch of the delta transform: state untouched,
reasoning removed, content normalized to the string it held (empty when
absent or empty). -/
theorem transformDelta_disabled (started : Bool) (d : Delta) :
    transformDelta false started d =
      (started, { reasoning_content := none, content := some (d.content.getD ("")) }) := by
  cases hc : d.content with
  | none => simp [transformDelta, jsTruthy, hc]
  | some s =>
    by_cases hs : s = ""
    · simp [transformDelta, jsTruthy, hc, hs]
    · simp [transformDelta, jsTruthy, hc, hs]

/-- In the display-enabled branch, whenever the reasoning or the content field
is truthy the combined text is nonempty, so the reasoning field is removed
from the outgoing delta. -/
theorem transformDelta_enabled_removes (started : Bool) (d : Delta)
    (h : jsTruthy d.reasoning_content = true ∨ jsTruthy d.content = true) :
    (transformDelta true started d).2.reasoning_content = none := by
  have hth : ("<think>\n" : String) ≠ "" := by decide
  have htc : ("</think>\n\n" : String) ≠ "" := by decide
  rcases h with hR | hC
  · obtain ⟨s, hs, hsne⟩ := (jsTruthy_true_iff _).mp hR
    have hts : jsTruthy (some s) = true := by simp [jsTruthy, bne_iff_ne, hsne]
    cases started <;> cases hC2 : jsTruthy d.content <;>
      simp [transformDelta, hs, hts, hC2, bne_iff_ne, string_append_empty_iff, hsne, hth, htc]
  · obtain ⟨c, hc, hcne⟩ := (jsTruthy_true_iff _).mp hC
    have htcc : jsTruthy (some c) = true := by simp [jsTruthy, bne_iff_ne, hcne]
    cases started <;> cases hR2 : jsTruthy d.reasoning_content <;>
      simp [transformDelta, hc, htcc, hR2, bne_iff_ne, string_append_empty_iff, hcne, hth, htc]

/-- In the display-enabled branch, when both fields are falsy nothing is
combined and the delta passes through untouched. -/
theorem transformDelta_enabled_skip (started : Bool) (d : Delta)
    (hR : jsTruthy d.reasoning_content = false) (hC : jsTruthy d.content = false) :
    transformDelta true started d = (started, d) := by
  simp [transformDelta, hR, hC]

/-- Processing of a data line that carries a parsed delta: the delta transform
runs and the event is re-framed. -/
theorem processLine_parsed (parse : List Char → Option Parsed) (disp started : Bool)
    (line : List Char) (d : Delta)
    (hp : dataMarker.isPrefixOf line = true) (hd : hasSub doneMarker line = false)
    (hj : parse (List.drop 6 line) = some (Parsed.withDelta d)) :
    processLine parse disp started line =
      ((transformDelta disp started d).1,
       [OutLine.reframed (Parsed.withDelta (transformDelta disp started d).2)]) := by
  unfold processLine
  rw [hp, hd, hj]
  simp

/-- C2: with the display toggle enabled, feeding the three delta events
[reasoning=a], [reasoning=b], [content=c] emits events whose content fields
are exactly the marked pieces, concatenating to the single visible text; the
opening marker appears only on the first reasoning delta (reasoningStarted
goes false to true), the second reasoning delta is passed bare, and the first
content delta while reasoning is open is prefixed with the closing marker
(reasoningStarted resets to false); reasoning_content is absent from every
output event. -/
theorem c2_reasoning_display (parse : List Char → Option Parsed) (l1 l2 l3 : List Char)
    (h1p : dataMarker.isPrefixOf l1 = true) (h1d : hasSub doneMarker l1 = false)
    (h1 : parse (List.drop 6 l1) =
      some (Parsed.withDelta { reasoning_content := some ("a"), content := none }))
    (h2p : dataMarker.isPrefixOf l2 = true) (h2d : hasSub doneMarker l2 = false)
    (h2 : parse (List.drop 6 l2) =
      some (Parsed.withDelta { reasoning_content := some ("b"), content := none }))
    (h3p : dataMarker.isPrefixOf l3 = true) (h3d : hasSub doneMarker l3 = false)
    (h3 : parse (List.drop 6 l3) =
      some (Parsed.withDelta { reasoning_content := none, content := some ("c") })) :
    processLines parse true false [l1, l2, l3] =
      (false,
       [OutLine.reframed (Parsed.withDelta
          { reasoning_content := none, content := some ("<think>\n" ++ "a") }),
        OutLine.reframed (Parsed.withDelta
          { reasoning_content := none, content := some ("b") }),
        OutLine.reframed (Parsed.withDelta
          { reasoning_content := none, content := some ("</think>\n\n" ++ "c") })]) ∧
      ("<think>\n" ++ "a") ++ ("b") ++ ("</think>\n\n" ++ "c") = "<think>\nab</think>\n\nc" := by
  constructor
  · have e1 := processLine_parsed parse true false l1 _ h1p h1d h1
    have e2 := processLine_parsed parse true true l2 _ h2p h2d h2
    have e3 := processLine_parsed parse true true l3 _ h3p h3d h3
    have t1 : transformDelta true false { reasoning_content := some ("a"), content := none } =
        (true, { reasoning_content := none, content := some ("<think>\n" ++ "a") }) := by decide
    have t2 : transformDelta true true { reasoning_content := some ("b"), content := none } =
        (true, { reasoning_content := none, content := some ("b") }) := by decide
    have t3 : transformDelta true true { reasoning_content := none, content := some ("c") } =
        (false, { reasoning_content := none, content := some ("</think>\n\n" ++ "c") }) := by decide
    simp [processLines, e1, e2, e3, t1, t2, t3]
  · decide

/-- Witness for c2_reasoning_display at a concrete parse oracle and lines. -/
theorem c2_witness :
    processLines parseC2 true false
        [("data: 1").data, ("data: 2").data, ("data: 3").data] =
      (false,
       [OutLine.reframed (Parsed.withDelta
          { reasoning_content := none, content := some ("<think>\n" ++ "a") }),
        OutLine.reframed (Parsed.withDelta
          { reasoning_content := none, content := some ("b") }),
        OutLine.reframed (Parsed.withDelta
          { reasoning_content := none, content := some ("</think>\n\n" ++ "c") })]) ∧
      ("<think>\n" ++ "a") ++ ("b") ++ ("</think>\n\n" ++ "c") = "<think>\nab</think>\n\nc" :=
  c2_reasoning_display parseC2 (("data: 1").data) (("data: 2").data) (("data: 3").data)
    (by decide) (by decide) (by decide) (by decide) (by decide) (by decide)
    (by decide) (by decide) (by decide)

/-- C3: with the display toggle disabled (the shipped SHOW_REASONING value),
every parsed delta event is emitted with content exactly equal to the input
content field, the empty string when that field is absent, including
empty-string content deltas, and with the reasoning field absent. -/
theorem c3_display_disabled (parse : List Char → Option Parsed) (started : Bool)
    (line : List Char) (d : Delta)
    (hp : dataMarker.isPrefixOf line = true) (hd : hasSub doneMarker line = false)
    (hj : parse (List.drop 6 line) = some (Parsed.withDelta d)) :
    processLine parse SHOW_REASONING started line =
      (started, [OutLine.reframed (Parsed.withDelta
        { reasoning_content := none, content := some (d.content.getD ("")) })]) := by
  rw [processLine_parsed parse SHOW_REASONING started line d hp hd hj,
    show SHOW_REASONING = false from rfl, transformDelta_disabled]

/-- Witness for c3_display_disabled: a concrete event carrying reasoning and
an empty-string content delta. -/
theorem c3_witness :
    processLine parseC3 SHOW_REASONING false (("data: x").data) =
      (false, [OutLine.reframed (Parsed.withDelta
        { reasoning_content := none, content := some ("") })]) :=
  c3_display_disabled parseC3 false (("data: x").data)
    { reasoning_content := some ("secret"), content := some ("") }
    (by decide) (by decide) (by decide)

/-- C4 counterexample: with the display toggle enabled, an event whose delta
carries an empty-string reasoning field and no content is re-emitted with the
reasoning field still present, refuting the claim that the reasoning field is
always removed from emitted events. -/
theorem c4_counterexample :
    processLine parseC4 true false (("data: e").data) =
      (false, [OutLine.reframed (Parsed.withDelta
        { reasoning_content := some (""), content := none })]) ∧
      some ("") ≠ (none : Option String) := by
  exact ⟨by decide, by decide⟩

/-- C4 (amended): for a parsed data event whose delta carries a reasoning
field, the emitted event omits the reasoning field exactly when the display
toggle is disabled, or the reasoning field is truthy, or the content field is
truthy; in the one remaining case (display enabled, both fields falsy) the
delta passes through unchanged, retaining the empty reasoning field. -/
theorem c4_amended (disp started : Bool) (d : Delta)
    (hr : d.reasoning_content.isSome = true) :
    (((transformDelta disp started d).2.reasoning_content = none) ↔
      (disp = false ∨ jsTruthy d.reasoning_content = true ∨ jsTruthy d.content = true)) ∧
    ((disp = true ∧ jsTruthy d.reasoning_content = false ∧ jsTruthy d.content = false) →
      (transformDelta disp started d).2 = d) := by
  obtain ⟨s, hs⟩ := Option.isSome_iff_exists.mp hr
  cases disp with
  | false => simp [transformDelta_disabled]
  | true =>
    cases hR : jsTruthy d.reasoning_content with
    | true =>
      simp [transformDelta_enabled_removes started d (Or.inl hR), hR]
    | false =>
      cases hC : jsTruthy d.content with
      | true =>
        simp [transformDelta_enabled_removes started d (Or.inr hC), hC]
      | false =>
        rw [transformDelta_enabled_skip started d hR hC]
        simp [hs]

/-- Witness for c4_amended at a concrete delta with an empty reasoning field,
display disabled. -/
theorem c4_amended_witness :
    ((Delta.mk (some ("")) (some (""))).reasoning_content.isSome = true) ∧
    ((((transformDelta false false (Delta.mk (some ("")) (some ("")))).2.reasoning_content = none) ↔
        ((false : Bool) = false ∨
          jsTruthy (Delta.mk (some ("")) (some (""))).reasoning_content = true ∨
          jsTruthy (Delta.mk (some ("")) (some (""))).content = true)) ∧
      (((false : Bool) = true ∧
          jsTruthy (Delta.mk (some ("")) (some (""))).reasoning_content = false ∧
          jsTruthy (Delta.mk (some ("")) (some (""))).content = false) →
        (transformDelta false false (Delta.mk (some ("")) (some ("")))).2 =
          Delta.mk (some ("")) (some ("")))) :=
  ⟨by decide, c4_amended false false (Delta.mk (some ("")) (some (""))) (by decide)⟩

/-- C10: every complete line starting with the data prefix whose text contains
the [DONE] sentinel anywhere is forwarded raw with a single newline, without
parsing or transformation: the reasoning-splice policy is not applied and the
state is unchanged. -/
theorem c10_done_passthrough (parse : List Char → Option Parsed) (disp started : Bool)
    (line : List Char)
    (hp : dataMarker.isPrefixOf line = true) (hd : hasSub doneMarker line = true) :
    processLine parse disp started line = (started, [OutLine.passthrough line]) := by
  unfold processLine
  rw [hp, hd]
  simp

/-- Witness for c10_done_passthrough: an ordinary-looking payload that merely
contains the sentinel substring is still passed through raw. -/
theorem c10_witness :
    processLine (fun _ => none) false false (("data: x [DONE] y").data) =
      (false, [OutLine.passthrough (("data: x [DONE] y").data)]) :=
  c10_done_passthrough (fun _ => none) false false (("data: x [DONE] y").data)
    (by decide) (by decide)

/-- C5: for a requested model absent from the static mapping whose probe
fails, the resolver performs exactly one probe call and returns on the tier
fallback: the large default when the lowercased name contains gpt-4,
claude-opus or 405b; otherwise the medium default when it contains claude,
gemini or 70b; otherwise the small default — first matching tier wins and
the resolver always produces a result. -/
theorem c5_tier_fallback (probe : String → ProbeResult) (m : String)
    (hmap : MODEL_MAPPING m = none) (hfail : probeAdopts (probe m) = false) :
    (resolveModel probe m).2 = 1 ∧
    (largeHit m = true → (resolveModel probe m).1 = "meta/llama-3.1-405b-instruct") ∧
    (largeHit m = false → mediumHit m = true →
      (resolveModel probe m).1 = "meta/llama-3.1-70b-instruct") ∧
    (largeHit m = false → mediumHit m = false →
      (resolveModel probe m).1 = "meta/llama-3.1-8b-instruct") := by
  have hres : resolveModel probe m = (tierFallback m, 1) := by
    simp [resolveModel, hmap, hfail]
  rw [hres]
  refine ⟨rfl, ?_, ?_, ?_⟩
  · intro hL
    simp [tierFallback, hL]
  · intro hL hM
    simp [tierFallback, hL, hM]
  · intro hL hM
    simp [tierFallback, hL, hM]

/-- Witness for c5_tier_fallback: an unmapped 405b-flavored name with a
failing probe. -/
theorem c5_witness :
    (MODEL_MAPPING ("Mixtral-405B") = none ∧ probeAdopts ProbeResult.netError = false) ∧
    ((resolveModel (fun _ => ProbeResult.netError) ("Mixtral-405B")).2 = 1 ∧
     (largeHit ("Mixtral-405B") = true →
       (resolveModel (fun _ => ProbeResult.netError) ("Mixtral-405B")).1 =
         "meta/llama-3.1-405b-instruct") ∧
     (largeHit ("Mixtral-405B") = false → mediumHit ("Mixtral-405B") = true →
       (resolveModel (fun _ => ProbeResult.netError) ("Mixtral-405B")).1 =
         "meta/llama-3.1-70b-instruct") ∧
     (largeHit ("Mixtral-405B") = false → mediumHit ("Mixtral-405B") = false →
       (resolveModel (fun _ => ProbeResult.netError) ("Mixtral-405B")).1 =
         "meta/llama-3.1-8b-instruct")) :=
  ⟨⟨by decide, by decide⟩,
   c5_tier_fallback (fun _ => ProbeResult.netError) ("Mixtral-405B") (by decide) (by decide)⟩

/-- C6: a requested model present in the static mapping resolves to the mapped
backend identifier with zero probe calls, for every probe oracle. -/
theorem c6_mapped (probe : String → ProbeResult) (m v : String)
    (h : MODEL_MAPPING m = some v) :
    resolveModel probe m = (v, 0) := by
  simp [resolveModel, h]

/-- Witness for c6_mapped at the gpt-4 mapping entry. -/
theorem c6_witness :
    MODEL_MAPPING ("gpt-4") = some ("qwen/qwen3-coder-480b-a35b-instruct") ∧
    resolveModel (fun _ => ProbeResult.netError) ("gpt-4") =
      ("qwen/qwen3-coder-480b-a35b-instruct", 0) :=
  ⟨by decide,
   c6_mapped (fun _ => ProbeResult.netError) ("gpt-4")
     ("qwen/qwen3-coder-480b-a35b-instruct") (by decide)⟩

/-- C7 counterexample: a GET request for the bare root path matches no route
and returns the 404 envelope, refuting the claim that GET / returns the 200
health body. -/
theorem c7_counterexample :
    (handler (ChatOutcome.ok false) ("GET") (some ("/"))).status = 404 ∧
      (handler (ChatOutcome.ok false) ("GET") (some ("/"))).status ≠ 200 := by
  exact ⟨by decide, by decide⟩

/-- C7 (amended): a GET whose path contains /health (or is exactly /api or
/api/) returns 200 with the health body reflecting the two process toggles,
for every chat outcome; the bare root path / matches nothing and returns the
404 envelope. -/
theorem c7_amended (chat : ChatOutcome) (path : String)
    (h : hasSub (("/health").data) path.data = true ∨ path = "/api" ∨ path = "/api/") :
    handler chat ("GET") (some path) =
      { status := 200, headers := corsHeaders,
        body := BodyModel.health ("OpenAI to NVIDIA NIM Proxy (Vercel)")
          SHOW_REASONING ENABLE_THINKING_MODE } ∧
    handler chat ("GET") (some ("/")) =
      { status := 404, headers := corsHeaders,
        body := BodyModel.errorEnv (("Endpoint ") ++ ("/") ++ (" not found")) 404 } := by
  constructor
  · have hne : ¬ ("GET" : String) = "OPTIONS" := by decide
    have hcond : (hasSub (("/health").data) path.data ||
        path == "/api" || path == "/api/") = true := by
      rcases h with h | h | h
      · simp [h]
      · simp [h]
      · simp [h]
    simp [handler, hne, hcond]
  · rfl

/-- Witness for c7_amended on the path /api/health. -/
theorem c7_witness :
    (hasSub (("/health").data) ("/api/health").data = true ∨
      ("/api/health" : String) = "/api" ∨ ("/api/health" : String) = "/api/") ∧
    (handler (ChatOutcome.ok false) ("GET") (some ("/api/health")) =
      { status := 200, headers := corsHeaders,
        body := BodyModel.health ("OpenAI to NVIDIA NIM Proxy (Vercel)")
          SHOW_REASONING ENABLE_THINKING_MODE } ∧
    handler (ChatOutcome.ok false) ("GET") (some ("/")) =
      { status := 404, headers := corsHeaders,
        body := BodyModel.errorEnv (("Endpoint ") ++ ("/") ++ (" not found")) 404 }) :=
  ⟨by decide, c7_amended (ChatOutcome.ok false) ("/api/health") (by decide)⟩

/-- C8 counterexample: the OPTIONS preflight answer is emitted before the CORS
headers are attached, so it carries none of them, refuting the claim that
every response carries the three headers. -/
theorem c8_counterexample :
    (handler (ChatOutcome.ok false) ("OPTIONS") (some ("/v1/models"))).headers = [] ∧
      (("Access-Control-Allow-Origin", ("*" : String)) ∉
        (handler (ChatOutcome.ok false) ("OPTIONS") (some ("/v1/models"))).headers) := by
  exact ⟨by decide, by decide⟩

/-- C8 (amended): every response to a non-OPTIONS request carries all three
CORS headers — for every path, method and chat outcome; only the OPTIONS
preflight, answered before the headers are set, lacks them. -/
theorem c8_amended (chat : ChatOutcome) (method : String) (url : Option String)
    (h : method ≠ "OPTIONS") :
    ("Access-Control-Allow-Origin", ("*" : String)) ∈ (handler chat method url).headers ∧
    ("Access-Control-Allow-Methods", ("GET, POST, OPTIONS" : String)) ∈
      (handler chat method url).headers ∧
    ("Access-Control-Allow-Headers", ("Content-Type, Authorization" : String)) ∈
      (handler chat method url).headers := by
  unfold handler
  rw [if_neg h]
  refine ⟨?_, ?_, ?_⟩ <;>
  · split
    · exact show _ ∈ corsHeaders by decide
    · split
      · exact show _ ∈ corsHeaders by decide
      · split
        · split
          · exact show _ ∈ corsHeaders ++ streamHeaders by decide
          · exact show _ ∈ corsHeaders by decide
          · exact show _ ∈ corsHeaders by decide
        · exact show _ ∈ corsHeaders by decide

/-- Witness for c8_amended: a streaming chat completion over POST. -/
theorem c8_witness :
    (("POST" : String) ≠ "OPTIONS") ∧
    (("Access-Control-Allow-Origin", ("*" : String)) ∈
        (handler (ChatOutcome.ok true) ("POST") (some ("/v1/chat/completions"))).headers ∧
      ("Access-Control-Allow-Methods", ("GET, POST, OPTIONS" : String)) ∈
        (handler (ChatOutcome.ok true) ("POST") (some ("/v1/chat/completions"))).headers ∧
      ("Access-Control-Allow-Headers", ("Content-Type, Authorization" : String)) ∈
        (handler (ChatOutcome.ok true) ("POST") (some ("/v1/chat/completions"))).headers) :=
  ⟨by decide,
   c8_amended (ChatOutcome.ok true) ("POST") (some ("/v1/chat/completions")) (by decide)⟩

/-- C9 counterexample: a request supplying temperature 0 and max_tokens 0 has
both replaced by the fixed defaults (0 is falsy under the defaulting
operator), refuting the claim that a supplied 0 is forwarded. -/
theorem c9_counterexample :
    (nimRequest ("m")
        { model := "x", messages := [], temperature := some 0, max_tokens := some 0,
          stream := none }).temperature = 0.6 ∧
      (nimRequest ("m")
        { model := "x", messages := [], temperature := some 0, max_tokens := some 0,
          stream := none }).temperature ≠ 0 ∧
      (nimRequest ("m")
        { model := "x", messages := [], temperature := some 0, max_tokens := some 0,
          stream := none }).max_tokens = 9024 := by
  refine ⟨?_, ?_, by decide⟩
  · show jsOrRat (some 0) 0.6 = 0.6
    norm_num [jsOrRat]
  · show jsOrRat (some 0) 0.6 ≠ 0
    norm_num [jsOrRat]

/-- C9 (amended): temperature and max_tokens are forwarded exactly when
supplied and nonzero; a supplied 0, like an absent field, is replaced by the
fixed defaults 0.6 and 9024. -/
theorem c9_amended (nm : String) (r : ChatRequest) :
    (nimRequest nm r).temperature =
      (match r.temperature with
       | none => (0.6 : ℚ)
       | some t => if t = 0 then (0.6 : ℚ) else t) ∧
    (nimRequest nm r).max_tokens =
      (match r.max_tokens with
       | none => (9024 : Int)
       | some n => if n = 0 then (9024 : Int) else n) := by
  obtain ⟨mo, ms, mt, mm, mstr⟩ := r
  constructor
  · cases mt <;> rfl
  · cases mm <;> rfl

end NimProxy
